import Mathlib

/-!
Verification of the conversion and error-handling logic of the Zeus forecast
dashboard (`streamlit_app.py`).  The numeric code is embedded over the real
numbers; nullable JSON samples are `Option ℝ`; the Streamlit calls that emit
messages or charts are modelled as a list of emitted `UIEvent`s, and code that
can raise a Python exception is modelled in `Except String`.
-/

namespace Zeus

/-- Remainder with the sign of the divisor, the semantics of the Python `%`
operator on floats: `x % y = x - y * floor (x / y)`. -/
noncomputable def realMod (x y : ℝ) : ℝ := x - y * ⌊x / y⌋

/-- `math.degrees`: radians to degrees. -/
noncomputable def degrees (x : ℝ) : ℝ := x * (180 / Real.pi)

/-- `math.atan2 y x`: the angle of the point `(x, y)`, in `(-π, π]`,
which is the complex argument of `x + y*i`. -/
noncomputable def atan2 (y x : ℝ) : ℝ := Complex.arg ⟨x, y⟩

/-- `wind_speed_direction` from `streamlit_app.py` (lines 32-36):
speed in knots and meteorological direction in degrees from components. -/
noncomputable def wind_speed_direction (u v : ℝ) : ℝ × ℝ :=
  let speed_ms := Real.sqrt (u ^ 2 + v ^ 2)
  let speed_knots := speed_ms * 1.94384
  let direction_deg := realMod (degrees (atan2 u v) + 180) 360
  (speed_knots, direction_deg)

/-- The wind conversion exactly as section 4.2 of the spec words it:
speed is the norm converted to knots by multiplying with 1.94384, direction
is atan2(u,v) in degrees plus 180, taken modulo 360. -/
noncomputable def wind_speed_direction_as_specified (u v : ℝ) : ℝ × ℝ :=
  (Real.sqrt (u ^ 2 + v ^ 2) * 1.94384, realMod (degrees (atan2 u v) + 180) 360)

/-- The Python built-in `round` on a real argument: nearest integer,
ties go to the even integer. -/
noncomputable def pyRound (x : ℝ) : ℤ :=
  if Int.fract x = 1 / 2 then (if Even ⌊x⌋ then ⌊x⌋ else ⌊x⌋ + 1) else round x

/-- The 16 compass labels of `deg_to_compass`, starting at North. -/
def dirs : List String :=
  ["N", "NNE", "NE", "ENE", "E", "ESE", "SE", "SSE",
   "S", "SSW", "SW", "WSW", "W", "WNW", "NW", "NNW"]

/-- The index computed by `deg_to_compass` (line 41): `round(deg / 22.5) % 16`. -/
noncomputable def compassIndex (deg : ℝ) : ℤ := pyRound (deg / 22.5) % 16

/-- `deg_to_compass` from `streamlit_app.py` (lines 38-42). -/
noncomputable def deg_to_compass (deg : ℝ) : String :=
  dirs.getD (compassIndex deg).toNat ""

/-- The compass conversion exactly as section 4.2 of the spec words it:
round(degrees / 22.5) mod 16 indexing the fixed list starting at North. -/
noncomputable def deg_to_compass_as_specified (deg : ℝ) : String :=
  dirs.getD (pyRound (deg / 22.5) % 16).toNat ""

/- Helper lemmas about `realMod`. -/

theorem realMod_eq_fract (x y : ℝ) (hy : y ≠ 0) :
    realMod x y = y * Int.fract (x / y) := by
  rw [realMod, Int.fract, mul_sub, mul_comm y (x / y), div_mul_cancel₀ x hy]

theorem realMod_nonneg (x y : ℝ) (hy : 0 < y) : 0 ≤ realMod x y := by
  rw [realMod_eq_fract x y hy.ne']
  exact mul_nonneg hy.le (Int.fract_nonneg _)

theorem realMod_lt (x y : ℝ) (hy : 0 < y) : realMod x y < y := by
  rw [realMod_eq_fract x y hy.ne']
  calc y * Int.fract (x / y) < y * 1 := by
        exact mul_lt_mul_of_pos_left (Int.fract_lt_one _) hy
    _ = y := mul_one y

theorem realMod_eq_self {x y : ℝ} (h0 : 0 ≤ x) (h1 : x < y) : realMod x y = x := by
  have hy : 0 < y := lt_of_le_of_lt h0 h1
  have hfloor : ⌊x / y⌋ = 0 := by
    rw [Int.floor_eq_zero_iff]
    exact ⟨div_nonneg h0 hy.le, (div_lt_one hy).2 h1⟩
  rw [realMod, hfloor]
  simp

/- Data model: decoded responses, UI effects, and the tab bodies. -/

/-- A Streamlit call that the script makes while rendering. -/
inductive UIEvent where
  | error (msg : String)
  | warning (msg : String)
  | info (msg : String)
  | success (msg : String)
  | plot (xs : List String) (ys : List (Option ℝ))

/-- The decoded `hourly` object of a forecast response for one variable:
the `time` key and the variable key may each be missing (`data["hourly"].get`
supplies `[]`), and a present series may hold null samples. -/
structure ForecastData where
  time : Option (List String)
  values : Option (List (Option ℝ))

/-- An HTTP response as seen by `fetch_forecast`: status code, body text,
and the decoded JSON used when the status is 200. -/
structure HttpResponse where
  status : Nat
  text : String
  data : ForecastData

/-- `fetch_forecast` (lines 14-30), as a function of the HTTP response it
receives: on status 200 it returns the decoded data, otherwise it emits
`st.error("API call failed: {status} {text}")` and returns `None`. -/
def fetch_forecast (r : HttpResponse) : Option ForecastData × List UIEvent :=
  if r.status = 200 then (some r.data, [])
  else (none, [UIEvent.error ("API call failed: " ++ toString r.status ++ " " ++ r.text)])

/-- `plot_time_series` (lines 44-59), parameterised by the local-time
formatter applied to each timestamp.  Empty `times` or `values` produce a
warning and the pair of empty lists; otherwise the chart is drawn and the
local times and values are returned. -/
def plot_time_series (toLocal : String → String) (times : List String)
    (values : List (Option ℝ)) : (List String × List (Option ℝ)) × List UIEvent :=
  if times.isEmpty ∨ values.isEmpty then
    (([], []), [UIEvent.warning "No data available to plot."])
  else
    let local_times := times.map toLocal
    ((local_times, values), [UIEvent.plot local_times values])

/-- The Kelvin-to-Celsius list comprehension of the temperature tab
(line 134): `[t - 273.15 if t is not None else None for t in temps_raw]`. -/
noncomputable def temps_c (temps_raw : List (Option ℝ)) : List (Option ℝ) :=
  temps_raw.map fun t =>
    match t with
    | some t => some (t - 273.15)
    | none => none

/-- The metres-to-millimetres list comprehension of the precipitation tab
(line 157): `[v * 1000 if v is not None else None for v in vals_raw]`. -/
noncomputable def vals_mm (vals_raw : List (Option ℝ)) : List (Option ℝ) :=
  vals_raw.map fun v =>
    match v with
    | some v => some (v * 1000)
    | none => none

/-- The body of the temperature tab (lines 128-138), given the HTTP response
of its fetch, a local-time formatter and the one-decimal float formatter of
the f-string.  Formatting the latest value raises a `TypeError` when that
value is `None`, which no handler catches. -/
noncomputable def temperatureTab (toLocal : String → String) (fmt1 : ℝ → String)
    (r : HttpResponse) : Except String (List UIEvent) :=
  match fetch_forecast r with
  | (none, evs) => Except.ok evs
  | (some data, evs) =>
    let times := data.time.getD []
    let temps := temps_c (data.values.getD [])
    let pr := plot_time_series toLocal times temps
    let evs2 := evs ++ pr.2 ++ [UIEvent.info "Temperature is at 2 m AGL and displayed in °C."]
    match pr.1.2.getLast? with
    | none => Except.ok evs2
    | some none =>
      Except.error "TypeError: unsupported format string passed to NoneType.__format__"
    | some (some x) =>
      match pr.1.1.getLast? with
      | none => Except.ok evs2
      | some t =>
        Except.ok (evs2 ++ [UIEvent.success ("Latest Forecast: " ++ fmt1 x ++ " °C at " ++ t)])

/-- The call `wind_speed_direction(uu, vv)` on samples taken raw from the
decoded series (line 176): a null component raises a `TypeError` inside
`u**2`, which no handler catches. -/
noncomputable def wind_speed_direction_py (u v : Option ℝ) : Except String (ℝ × ℝ) :=
  match u, v with
  | some u, some v => Except.ok (wind_speed_direction u v)
  | _, _ => Except.error "TypeError: unsupported operand type(s) for ** or pow(): NoneType and int"

/-- The accumulation loop of the wind tab (lines 174-178) over the zipped
component series: the first failing pair aborts the tab. -/
noncomputable def windTabLoop :
    List (Option ℝ × Option ℝ) → Except String (List ℝ × List ℝ)
  | [] => Except.ok ([], [])
  | (u, v) :: rest =>
    match wind_speed_direction_py u v with
    | Except.error e => Except.error e
    | Except.ok sd =>
      match windTabLoop rest with
      | Except.error e => Except.error e
      | Except.ok sds => Except.ok (sd.1 :: sds.1, sd.2 :: sds.2)

/- Usage reporting (Overview tab, lines 104-122). -/

/-- The decoded usage JSON: every field may be missing. -/
structure UsageInfo where
  credits_used : Option ℤ
  credits_remaining : Option ℤ
  credits_limit : Option ℤ
  resets_at : Option String

/-- The four strings interpolated into the usage message. -/
structure UsageDisplay where
  used : String
  remaining : String
  limit : String
  reset_str : String

/-- `usage.get(field, "N/A")` followed by f-string interpolation. -/
def pyGetNum (x : Option ℤ) : String :=
  match x with
  | some n => toString n
  | none => "N/A"

/-- The Overview tab usage rendering (lines 105-121), parameterised by the
formatter that turns a present `resets_at` string into a local-time display.
A missing `resets_at` (and, by Python truthiness, an empty one) renders as
"Unknown". -/
def usageDisplay (formatLocal : String → String) (u : UsageInfo) : UsageDisplay :=
  { used := pyGetNum u.credits_used
    remaining := pyGetNum u.credits_remaining
    limit := pyGetNum u.credits_limit
    reset_str :=
      match u.resets_at with
      | some s => if s = "" then "Unknown" else formatLocal s
      | none => "Unknown" }

/- The reset-time conversion (lines 110-113), modelled over wall-clock
minutes.  A Python aware datetime is an instant plus an offset; `astimezone()`
on a NAIVE datetime interprets the naive wall-clock value as LOCAL time. -/

/-- An aware datetime: UTC instant and display offset, in minutes. -/
structure AwareTime where
  instantUtc : ℤ
  offset : ℤ

/-- `naive.astimezone()`: the naive wall-clock value is interpreted as local
time, so the instant is `wall - localOffset` and the attached offset is the
local one. -/
def astimezoneOfNaive (localOffset wall : ℤ) : AwareTime :=
  ⟨wall - localOffset, localOffset⟩

/-- The wall-clock value an aware datetime prints under `strftime`. -/
def AwareTime.wallClock (a : AwareTime) : ℤ := a.instantUtc + a.offset

/-- The wall-clock minutes displayed for `resets_at` by lines 111-113:
parse to a naive datetime (`wall`), call `astimezone()`, format. -/
def resetDisplayWall (localOffset wall : ℤ) : ℤ :=
  (astimezoneOfNaive localOffset wall).wallClock

/-- The display the spec asks for: the parsed wall-clock value is interpreted
as UTC and then converted to the local timezone. -/
def resetDisplayWallSpec (localOffset wall : ℤ) : ℤ := wall + localOffset

/- Values of atan2 at the inputs named by the spec. -/

theorem atan2_zero_one : atan2 0 1 = 0 := by
  have h : (⟨1, 0⟩ : ℂ) = 1 := Complex.ext (by simp) (by simp)
  rw [atan2, h, Complex.arg_one]

theorem atan2_one_zero : atan2 1 0 = Real.pi / 2 := by
  have h : (⟨0, 1⟩ : ℂ) = Complex.I := Complex.ext (by simp) (by simp)
  rw [atan2, h, Complex.arg_I]

theorem sqrt_twentyfive : Real.sqrt 25 = 5 := by
  rw [show (25 : ℝ) = 5 ^ 2 by norm_num, Real.sqrt_sq (by norm_num : (0:ℝ) ≤ 5)]

theorem atan2_three_four : atan2 3 4 = Real.arctan (3 / 4) := by
  rw [atan2, Complex.arg_of_re_nonneg (by norm_num : (0:ℝ) ≤ (⟨4, 3⟩ : ℂ).re)]
  have habs : Complex.abs ⟨4, 3⟩ = 5 := by
    rw [Complex.abs_apply, Complex.normSq_mk, show (4:ℝ) * 4 + 3 * 3 = 25 by norm_num]
    exact sqrt_twentyfive
  rw [habs, Real.arctan_eq_arcsin]
  have h2 : Real.sqrt (1 + (3 / 4 : ℝ) ^ 2) = 5 / 4 := by
    rw [show (1 + (3 / 4 : ℝ) ^ 2) = (5 / 4) ^ 2 by norm_num,
      Real.sqrt_sq (by norm_num : (0:ℝ) ≤ 5 / 4)]
  rw [h2]
  show Real.arcsin (3 / 5) = Real.arcsin (3 / 4 / (5 / 4))
  norm_num

theorem arctan_three_four_pos : 0 < Real.arctan (3 / 4) := by
  have h := Real.arctan_strictMono (show (0:ℝ) < 3 / 4 by norm_num)
  rwa [Real.arctan_zero] at h

theorem arctan_three_four_lt : Real.arctan (3 / 4) < Real.pi / 4 := by
  have h := Real.arctan_strictMono (show (3 / 4 : ℝ) < 1 by norm_num)
  rwa [Real.arctan_one] at h

theorem degrees_arctan_three_four_bounds :
    0 < degrees (Real.arctan (3 / 4)) ∧ degrees (Real.arctan (3 / 4)) < 45 := by
  have hπ := Real.pi_pos
  constructor
  · exact mul_pos arctan_three_four_pos (by positivity)
  · have h1 : degrees (Real.arctan (3 / 4)) < degrees (Real.pi / 4) :=
      mul_lt_mul_of_pos_right arctan_three_four_lt (by positivity)
    have h2 : degrees (Real.pi / 4) = 45 := by
      rw [degrees]
      field_simp
      ring
    linarith

theorem speed_three_four : (wind_speed_direction 3 4).1 = 9.7192 := by
  show Real.sqrt ((3:ℝ) ^ 2 + 4 ^ 2) * 1.94384 = 9.7192
  rw [show ((3:ℝ) ^ 2 + 4 ^ 2) = 25 by norm_num, sqrt_twentyfive]
  norm_num

theorem direction_three_four :
    (wind_speed_direction 3 4).2 = degrees (Real.arctan (3 / 4)) + 180 := by
  show realMod (degrees (atan2 3 4) + 180) 360 = _
  rw [atan2_three_four]
  have hb := degrees_arctan_three_four_bounds
  exact realMod_eq_self (by linarith [hb.1]) (by linarith [hb.2])

theorem direction_three_four_bounds :
    180 < (wind_speed_direction 3 4).2 ∧ (wind_speed_direction 3 4).2 < 225 := by
  rw [direction_three_four]
  have hb := degrees_arctan_three_four_bounds
  exact ⟨by linarith [hb.1], by linarith [hb.2]⟩

theorem direction_zero_one : (wind_speed_direction 0 1).2 = 180 := by
  show realMod (degrees (atan2 0 1) + 180) 360 = 180
  rw [atan2_zero_one, show degrees 0 = 0 by rw [degrees]; ring, zero_add]
  exact realMod_eq_self (by norm_num) (by norm_num)

theorem direction_one_zero : (wind_speed_direction 1 0).2 = 270 := by
  show realMod (degrees (atan2 1 0) + 180) 360 = 270
  rw [atan2_one_zero]
  have h : degrees (Real.pi / 2) = 90 := by
    rw [degrees]
    field_simp
    ring
  rw [h, show (90:ℝ) + 180 = 270 by norm_num]
  exact realMod_eq_self (by norm_num) (by norm_num)

/-- Claim C1, counterexample: the spec example values are wrong on the code.
The speed at (3,4) is 9.7192 kt, more than 1 kt away from the claimed 8.66;
the direction at (3,4) lies below 225°, more than 90° away from the claimed
323.13°; and the known pairs give 180° and 270°, not 0° and 90°. -/
theorem wind_example_claim_false :
    ¬|(wind_speed_direction 3 4).1 - 8.66| < 1 ∧
    ¬|(wind_speed_direction 3 4).2 - 323.13| < 90 ∧
    (wind_speed_direction 0 1).2 ≠ 0 ∧
    (wind_speed_direction 1 0).2 ≠ 90 := by
  refine ⟨?_, ?_, ?_, ?_⟩
  · rw [speed_three_four, not_lt, abs_of_pos (by norm_num : (0:ℝ) < 9.7192 - 8.66)]
    norm_num
  · have hb := direction_three_four_bounds
    rw [not_lt, abs_of_neg (by linarith [hb.2] : (wind_speed_direction 3 4).2 - 323.13 < 0)]
    linarith [hb.2]
  · rw [direction_zero_one]
    norm_num
  · rw [direction_one_zero]
    norm_num

/-- Claim C1, amended: wind_speed_direction(3,4) returns speed exactly
5 · 1.94384 = 9.7192 kt and direction arctan(3/4) in degrees plus 180
(about 216.87°, strictly between 180° and 225°); for the known pairs,
u=0, v=1 gives direction 180° (wind from the South) and u=1, v=0 gives
direction 270° (wind from the West). -/
theorem wind_example_values :
    (wind_speed_direction 3 4).1 = 9.7192 ∧
    (wind_speed_direction 3 4).2 = degrees (Real.arctan (3 / 4)) + 180 ∧
    180 < (wind_speed_direction 3 4).2 ∧ (wind_speed_direction 3 4).2 < 225 ∧
    (wind_speed_direction 0 1).2 = 180 ∧
    (wind_speed_direction 1 0).2 = 270 :=
  ⟨speed_three_four, direction_three_four, direction_three_four_bounds.1,
   direction_three_four_bounds.2, direction_zero_one, direction_one_zero⟩

/-- Claim C2: for every pair of real components, wind_speed_direction
returns the speed sqrt(u² + v²) · 1.94384 in knots and the direction
(atan2(u, v) in degrees + 180) mod 360, exactly as the spec states. -/
theorem wind_formula_matches_spec (u v : ℝ) :
    wind_speed_direction u v = wind_speed_direction_as_specified u v := rfl

/-- Claim C3, code evaluated at the failing input: a null u sample paired
with a present v sample makes the wind tab loop raise a TypeError that no
handler catches, so the exception escapes the request boundary. -/
theorem wind_tab_raises_on_null_sample :
    windTabLoop (List.zip [none] [some (1:ℝ)]) =
      Except.error "TypeError: unsupported operand type(s) for ** or pow(): NoneType and int" :=
  rfl

/-- Claim C4: the temperature conversion maps every non-null Kelvin sample k
to k - 273.15 (in particular 273.15 to 0.0) and null to null, preserving the
length of the sequence and the position of every element. -/
theorem temp_conversion_null_preserving (raw : List (Option ℝ)) (i : ℕ) :
    (temps_c raw).length = raw.length ∧
    (temps_c raw)[i]? = Option.map (fun t => Option.map (fun k => k - 273.15) t) raw[i]? ∧
    temps_c [some 273.15] = [some 0] ∧
    temps_c [none] = [none] := by
  refine ⟨?_, ?_, ?_, ?_⟩
  · simp [temps_c]
  · simp only [temps_c, List.getElem?_map]
    cases h : raw[i]? with
    | none => rfl
    | some t => cases t <;> rfl
  · simp [temps_c]
  · rfl

/-- Claim C5: the precipitation conversion maps every non-null sample in
metres to the value multiplied by 1000 (in particular 0.001 m to 1.0 mm) and
null to null, preserving the length and position of every element. -/
theorem precip_conversion_null_preserving (raw : List (Option ℝ)) (i : ℕ) :
    (vals_mm raw).length = raw.length ∧
    (vals_mm raw)[i]? = Option.map (fun t => Option.map (fun v => v * 1000) t) raw[i]? ∧
    vals_mm [some 0.001] = [some 1] ∧
    vals_mm [none] = [none] := by
  refine ⟨?_, ?_, ?_, ?_⟩
  · simp [vals_mm]
  · simp only [vals_mm, List.getElem?_map]
    cases h : raw[i]? with
    | none => rfl
    | some t => cases t <;> rfl
  · simp [vals_mm]
    norm_num
  · rfl

/- Evaluations of the compass index at the spec test angles. -/

theorem pyRound_of_fract_ne {x : ℝ} (h : Int.fract x ≠ 1 / 2) : pyRound x = round x :=
  if_neg h

theorem compassIndex_zero : compassIndex 0 = 0 := by
  rw [compassIndex, show (0:ℝ) / 22.5 = 0 by norm_num,
    pyRound_of_fract_ne (by rw [Int.fract_zero]; norm_num), round_zero]
  decide

theorem compassIndex_ninety : compassIndex 90 = 4 := by
  rw [compassIndex, show (90:ℝ) / 22.5 = ((4:ℤ) : ℝ) by norm_num,
    pyRound_of_fract_ne (by rw [Int.fract_intCast]; norm_num), round_intCast]
  decide

theorem compassIndex_359 : compassIndex 359 = 0 := by
  have hfl : ⌊(359:ℝ) / 22.5⌋ = 15 := by
    rw [Int.floor_eq_iff]
    constructor <;> norm_num
  have hfr : Int.fract ((359:ℝ) / 22.5) ≠ 1 / 2 := by
    rw [Int.fract, hfl]
    norm_num
  have hrd : round ((359:ℝ) / 22.5) = 16 := by
    rw [round_eq, Int.floor_eq_iff]
    constructor <;> norm_num
  rw [compassIndex, pyRound_of_fract_ne hfr, hrd]
  decide

/-- Claim C6: deg_to_compass is exactly round(degrees / 22.5) mod 16 indexing
the fixed 16-label list starting at North, and in particular sends 0 to "N",
90 to "E" and 359 to "N". -/
theorem deg_to_compass_spec_and_values :
    (∀ d : ℝ, deg_to_compass d = deg_to_compass_as_specified d) ∧
    deg_to_compass 0 = "N" ∧ deg_to_compass 90 = "E" ∧ deg_to_compass 359 = "N" := by
  refine ⟨fun d => rfl, ?_, ?_, ?_⟩
  · show dirs.getD (compassIndex 0).toNat "" = "N"
    rw [compassIndex_zero]
    rfl
  · show dirs.getD (compassIndex 90).toNat "" = "E"
    rw [compassIndex_ninety]
    rfl
  · show dirs.getD (compassIndex 359).toNat "" = "N"
    rw [compassIndex_359]
    rfl

/-- Claim C7: a non-200 response makes fetch_forecast emit an error message
built from the status code and body text and return no data, so the tab body
renders nothing beyond that message and plots no series; and an empty times
or values list makes plot_time_series emit the no-data warning and return
the pair of empty lists. -/
theorem non200_and_empty_series_handling
    (r : HttpResponse) (hr : r.status ≠ 200)
    (toLocal : String → String) (fmt1 : ℝ → String)
    (times : List String) (values : List (Option ℝ))
    (hempty : times = [] ∨ values = []) :
    fetch_forecast r =
      (none, [UIEvent.error ("API call failed: " ++ toString r.status ++ " " ++ r.text)]) ∧
    temperatureTab toLocal fmt1 r =
      Except.ok [UIEvent.error ("API call failed: " ++ toString r.status ++ " " ++ r.text)] ∧
    plot_time_series toLocal times values =
      (([], []), [UIEvent.warning "No data available to plot."]) := by
  have hfetch : fetch_forecast r =
      (none, [UIEvent.error ("API call failed: " ++ toString r.status ++ " " ++ r.text)]) := by
    unfold fetch_forecast
    rw [if_neg hr]
  refine ⟨hfetch, ?_, ?_⟩
  · unfold temperatureTab
    rw [hfetch]
  · unfold plot_time_series
    rw [if_pos]
    rcases hempty with h | h <;> simp [h]

/-- Claim C7 witness: the handling at status 404 with body "not found" and
at the empty time series. -/
theorem non200_and_empty_series_handling_witness :
    fetch_forecast ⟨404, "not found", ⟨none, none⟩⟩ =
      (none, [UIEvent.error ("API call failed: " ++ toString (404:ℕ) ++ " " ++ "not found")]) ∧
    temperatureTab id (fun _ => "") ⟨404, "not found", ⟨none, none⟩⟩ =
      Except.ok [UIEvent.error ("API call failed: " ++ toString (404:ℕ) ++ " " ++ "not found")] ∧
    plot_time_series id [] [some 1] =
      (([], []), [UIEvent.warning "No data available to plot."]) :=
  non200_and_empty_series_handling ⟨404, "not found", ⟨none, none⟩⟩ (by decide)
    id (fun _ => "") [] [some 1] (Or.inl rfl)

/-- Claim C8: every missing usage field renders as its placeholder ("N/A"
for the credit fields, "Unknown" for the reset time) while every present
field still renders its value; the display function is total, so nothing
fails. -/
theorem usage_missing_fields_displayed_unknown
    (formatLocal : String → String) (u : UsageInfo) :
    (u.credits_used = none → (usageDisplay formatLocal u).used = "N/A") ∧
    (∀ n, u.credits_used = some n → (usageDisplay formatLocal u).used = toString n) ∧
    (u.credits_remaining = none → (usageDisplay formatLocal u).remaining = "N/A") ∧
    (∀ n, u.credits_remaining = some n →
      (usageDisplay formatLocal u).remaining = toString n) ∧
    (u.credits_limit = none → (usageDisplay formatLocal u).limit = "N/A") ∧
    (∀ n, u.credits_limit = some n → (usageDisplay formatLocal u).limit = toString n) ∧
    (u.resets_at = none → (usageDisplay formatLocal u).reset_str = "Unknown") ∧
    (∀ s, u.resets_at = some s → s ≠ "" →
      (usageDisplay formatLocal u).reset_str = formatLocal s) := by
  refine ⟨?_, ?_, ?_, ?_, ?_, ?_, ?_, ?_⟩
  · intro h
    simp [usageDisplay, pyGetNum, h]
  · intro n h
    simp [usageDisplay, pyGetNum, h]
  · intro h
    simp [usageDisplay, pyGetNum, h]
  · intro n h
    simp [usageDisplay, pyGetNum, h]
  · intro h
    simp [usageDisplay, pyGetNum, h]
  · intro n h
    simp [usageDisplay, pyGetNum, h]
  · intro h
    simp [usageDisplay, h]
  · intro s h hs
    simp [usageDisplay, h, hs]

/-- Claim C8 witness: a usage record with used and limit missing and
remaining and reset time present renders "N/A" for the missing fields and
the given values for the present ones. -/
theorem usage_missing_fields_displayed_unknown_witness :
    (usageDisplay id ⟨none, some 5, none, some "2026-01-01T00:00:00"⟩).used = "N/A" ∧
    (usageDisplay id ⟨none, some 5, none, some "2026-01-01T00:00:00"⟩).remaining =
      toString (5:ℤ) ∧
    (usageDisplay id ⟨none, some 5, none, some "2026-01-01T00:00:00"⟩).limit = "N/A" ∧
    (usageDisplay id ⟨none, some 5, none, some "2026-01-01T00:00:00"⟩).reset_str =
      id "2026-01-01T00:00:00" := by
  refine ⟨?_, ?_, ?_, ?_⟩
  · exact (usage_missing_fields_displayed_unknown id _).1 rfl
  · exact (usage_missing_fields_displayed_unknown id _).2.2.2.1 5 rfl
  · exact (usage_missing_fields_displayed_unknown id _).2.2.2.2.1 rfl
  · exact (usage_missing_fields_displayed_unknown id _).2.2.2.2.2.2.2
      "2026-01-01T00:00:00" rfl (by decide)

/-- Claim C9, code evaluated at the failing input: because the parsed reset
timestamp is a naive datetime, astimezone() interprets it as local time, so
the displayed wall clock always equals the raw parsed value and no UTC-to-
local conversion takes place; at local offset +120 minutes and parsed wall
clock 720 the code shows 720 while the spec asks for 840. -/
theorem reset_time_not_converted_from_utc :
    (∀ localOffset wall : ℤ, resetDisplayWall localOffset wall = wall) ∧
    resetDisplayWall 120 720 = 720 ∧
    resetDisplayWallSpec 120 720 = 840 ∧
    resetDisplayWall 120 720 ≠ resetDisplayWallSpec 120 720 := by
  refine ⟨fun o w => ?_, by decide, by decide, by decide⟩
  show w - o + o = w
  omega

/-- Claim C10: the speed returned by wind_speed_direction is non-negative and
the direction lies in [0, 360); the compass index is an integer in [0, 16),
within the bounds of the 16-label list, so deg_to_compass always returns one
of the 16 labels. -/
theorem wind_direction_range_and_compass_safe (u v d : ℝ) :
    0 ≤ (wind_speed_direction u v).1 ∧
    0 ≤ (wind_speed_direction u v).2 ∧ (wind_speed_direction u v).2 < 360 ∧
    0 ≤ compassIndex d ∧ compassIndex d < 16 ∧
    (compassIndex d).toNat < dirs.length ∧
    deg_to_compass d ∈ dirs := by
  have h4 : 0 ≤ compassIndex d := Int.emod_nonneg _ (by norm_num)
  have h5 : compassIndex d < 16 := Int.emod_lt_of_pos _ (by norm_num)
  have h6 : (compassIndex d).toNat < dirs.length := by
    have hlen : dirs.length = 16 := rfl
    omega
  refine ⟨?_, ?_, ?_, h4, h5, h6, ?_⟩
  · exact mul_nonneg (Real.sqrt_nonneg _) (by norm_num)
  · exact realMod_nonneg _ _ (by norm_num)
  · exact realMod_lt _ _ (by norm_num)
  · show dirs.getD (compassIndex d).toNat "" ∈ dirs
    rw [List.getD_eq_getElem?_getD, List.getElem?_eq_getElem h6, Option.getD_some]
    exact List.getElem_mem h6

end Zeus
